import Mathlib

/-
Verification of the BCEL chatbot agent (src/agent/agent.py, src/agent/react_graph.py,
src/agent/tools.py) against its natural-language specification.

The embedding is shallow: langchain messages become an inductive type, the
Agent object state (the _user_sessions dict and the MemorySaver checkpointer)
becomes an explicit record threaded through the operations, and Python
exceptions become Except results.
-/

namespace BcelBot

/-- One requested tool call of a model response, mirroring the langchain
ToolCall dict: a name, structured arguments (kept abstract as one string) and
the correlation id. -/
structure ToolCall where
  name : String
  args : String
  id : String
deriving DecidableEq, Repr

/-- Conversation turns, mirroring the three langchain message classes the
source uses: HumanMessage, AIMessage (carrying its tool_calls list, empty by
default) and ToolMessage (carrying name, tool_call_id and the optional sql
entry of additional_kwargs). -/
inductive BaseMessage where
  | human (content : String)
  | ai (content : String) (tool_calls : List ToolCall)
  | tool (name : String) (content : String) (tool_call_id : String) (sql : Option String)
deriving DecidableEq, Repr

/-- True exactly on ToolMessage turns. -/
def isToolMsg : BaseMessage → Bool
  | BaseMessage.tool _ _ _ _ => true
  | _ => false

/-- One trace record built by Agent.retrieve_trace. The source stores the
message name under the key tool_call_id, its content under results, and the
sql value of additional_kwargs when that value is truthy. -/
structure TraceEntry where
  tool_call_id : String
  results : String
  sql : Option String
deriving DecidableEq, Repr

/-- Python truthiness of the optional sql entry of additional_kwargs: absent
or empty means falsy, so no sql key is added to the trace record. -/
def sqlField : Option String → Option String
  | some s => if s = "" then none else some s
  | none => none

/-- Agent.retrieve_trace: keep the ToolMessage turns, in order, as trace
records. -/
def retrieve_trace : List BaseMessage → List TraceEntry
  | [] => []
  | BaseMessage.tool nm content _ sql :: rest =>
      { tool_call_id := nm, results := content, sql := sqlField sql } :: retrieve_trace rest
  | BaseMessage.human _ :: rest => retrieve_trace rest
  | BaseMessage.ai _ _ :: rest => retrieve_trace rest

/-- Python list slicing l[i:] for a possibly negative start index: a negative
index counts from the end and is clamped at zero. -/
def pySliceFrom {α : Type} (i : Int) (l : List α) : List α :=
  if i < 0 then l.drop (l.length - (-i).toNat) else l.drop i.toNat

/-- The trace computation of Agent.user_session_invoke. The source records
cur_message_index = len(pre-cycle messages) - 1, runs the graph (the
add_messages channel only ever appends the new turns of the cycle, since every
message the program creates carries no id and is assigned a fresh one), and
returns retrieve_trace(messages[cur_message_index:]) over the final list
pre ++ new. -/
def user_session_invoke_trace (pre newMessages : List BaseMessage) : List TraceEntry :=
  retrieve_trace (pySliceFrom ((pre.length : Int) - 1) (pre ++ newMessages))

/-- One record of the transport history list: {type: ..., data: {content: ...}}. -/
structure HistRecord where
  type : String
  content : String
deriving DecidableEq, Repr

/-- The fixed default greeting BASE_HISTORY of agent.py. -/
def BASE_HISTORY : HistRecord :=
  { type := "ai"
  , content := "ສະບາຍດີ! BCEL ຍິນດີໃຫ້ບໍລິການ. ທ່ານຕ້ອງການສອບຖາມຂໍ້ມູນຜະລິດຕະພັນ ຫຼື ບໍລິການດ້ານໃດແດ່? (Hello! Welcome to BCEL. How can I assist you with our banking products and services today?)" }

/-- The transport session dict: optional uuid, optional history list and
optional user_info (only the name inside it is ever read). -/
structure Session where
  uuid : Option String
  history : Option (List HistRecord)
  user_info : Option String
deriving DecidableEq, Repr

/-- Agent.parse_messages: human records become HumanMessage, ai records
AIMessage, anything else raises. -/
def parse_messages : List HistRecord → Except String (List BaseMessage)
  | [] => Except.ok []
  | d :: rest =>
      if d.type = "human" then
        (parse_messages rest).map (fun ms => BaseMessage.human d.content :: ms)
      else if d.type = "ai" then
        (parse_messages rest).map (fun ms => BaseMessage.ai d.content [] :: ms)
      else
        Except.error "Message type not found."

/-- Agent.get_base_history: a personalized greeting when user_info is present,
the fixed BASE_HISTORY otherwise. The history field is never read. -/
def get_base_history (session : Session) : HistRecord :=
  match session.user_info with
  | some nm =>
      { type := "ai"
      , content := "Sabaidee " ++ nm ++ "! Welcome to BCEL assistance. How can I help you today?" }
  | none => BASE_HISTORY

/-- The whole mutable state of one Agent object: the _user_sessions dict
(session id to stored id token) and, for each thread id, the message list held
by the MemorySaver checkpoint. Dicts are modelled as association lists with
unique keys. -/
structure AgentState where
  user_sessions : List (String × String)
  checkpoints : List (String × List BaseMessage)
deriving DecidableEq, Repr

/-- Dict read (dict.get): the value at the first matching key, if any. -/
def lookupEntry {β : Type} : List (String × β) → String → Option β
  | [], _ => none
  | (k, v) :: rest, key => if k = key then some v else lookupEntry rest key

/-- Dict write (d[key] = v): overwrite in place, or append a fresh binding. -/
def setEntry {β : Type} : List (String × β) → String → β → List (String × β)
  | [], key, v => [(key, v)]
  | (k, w) :: rest, key, v =>
      if k = key then (key, v) :: rest else (k, w) :: setEntry rest key v

/-- Dict delete (del d[key]): drop every binding of the key (a dict holds at
most one). -/
def removeEntry {β : Type} : List (String × β) → String → List (String × β)
  | [], _ => []
  | (k, w) :: rest, key =>
      if k = key then removeEntry rest key else (k, w) :: removeEntry rest key

/-- langgraph update_state on the messages channel. The channel reducer is
add_messages, which gives every incoming message a fresh id when it carries
none and appends every message whose id matches no stored message. All
messages this program writes are created without ids, so the update extends
the stored list; it never replaces or deduplicates it. -/
def update_state (st : AgentState) (thread_id : String) (msgs : List BaseMessage) : AgentState :=
  let stored := (lookupEntry st.checkpoints thread_id).getD []
  { st with checkpoints := setEntry st.checkpoints thread_id (stored ++ msgs) }

/-- checkpointer.put with empty_checkpoint(): a fresh empty checkpoint becomes
the latest one for the thread, fully replacing the stored message list. -/
def put_empty_checkpoint (st : AgentState) (thread_id : String) : AgentState :=
  { st with checkpoints := setEntry st.checkpoints thread_id [] }

/-- Agent.get_user_id_token: self._user_sessions.get(uuid). -/
def get_user_id_token (st : AgentState) (uuid : String) : Option String :=
  lookupEntry st.user_sessions uuid

/-- Agent.set_user_session_header: self._user_sessions[uuid] = token. -/
def set_user_session_header (st : AgentState) (uuid : String) (token : String) : AgentState :=
  { st with user_sessions := setEntry st.user_sessions uuid token }

/-- The auth_token_getters dict built by Agent.get_config for a session: one
getter, keyed my_google_service, whose call returns get_user_id_token of the
session at call time. A getter is modelled by the value it returns. -/
def get_config (st : AgentState) (uuid : String) : List (String × Option String) :=
  [("my_google_service", get_user_id_token st uuid)]

/-- The session id used by user_session_create: the uuid of the session dict,
or the freshly minted one when the dict carries none. -/
def session_uuid (session : Session) (freshUuid : String) : String :=
  match session.uuid with
  | none => freshUuid
  | some u => u

/-- The history list user_session_create parses: the one already present, or
the seeded [BASE_HISTORY]. -/
def create_hist (session : Session) : List HistRecord :=
  match session.history with
  | none => [BASE_HISTORY]
  | some hh => hh

/-- Agent.user_session_create: fill in uuid and history when missing, parse
the history, push it into the graph state through update_state, and store the
empty string in _user_sessions for the session id. -/
def user_session_create (st : AgentState) (session : Session) (freshUuid : String) :
    Except String (AgentState × Session) :=
  let session_id := session_uuid session freshUuid
  let session2 : Session :=
    { session with uuid := some session_id, history := some (create_hist session) }
  match parse_messages (create_hist session) with
  | Except.error e => Except.error e
  | Except.ok msgs =>
      let st1 := update_state st session_id msgs
      Except.ok ({ st1 with user_sessions := setEntry st1.user_sessions session_id "" }, session2)

/-- Agent.user_session_reset: del session[history] (a KeyError when absent),
reseed one greeting record, parse it, overwrite the stored checkpoint with an
empty one and push the greeting through update_state. The _user_sessions dict
is not touched. -/
def user_session_reset (st : AgentState) (session : Session) (uuid : String) :
    Except String (AgentState × Session) :=
  match session.history with
  | none => Except.error "KeyError: history"
  | some _ =>
      match parse_messages [get_base_history session] with
      | Except.error e => Except.error e
      | Except.ok msgs =>
          let st1 := put_empty_checkpoint st uuid
          Except.ok (update_state st1 uuid msgs,
            { session with history := some [get_base_history session] })

/-- Agent.user_session_signout: overwrite the stored checkpoint with an empty
one, then del self._user_sessions[uuid] (a KeyError when the session id is not
a key). -/
def user_session_signout (st : AgentState) (uuid : String) : Except String AgentState :=
  let st1 := put_empty_checkpoint st uuid
  match lookupEntry st1.user_sessions uuid with
  | none => Except.error "KeyError: uuid"
  | some _ => Except.ok { st1 with user_sessions := removeEntry st1.user_sessions uuid }

/-- get_auth_tools of tools.py: the list of tool names that require login. The
shipped registry tags none. -/
def get_auth_tools : List String := []

/-- get_confirmation_needing_tools of tools.py: always empty. -/
def get_confirmation_needing_tools : List String := []

/-- Python truthiness of an Optional[str] value: None and the empty string are
falsy. -/
def pyTruthy : Option String → Bool
  | none => false
  | some s => s != ""

/-- The private __is_logged_in check of react_graph.py: the config must carry
an auth_token_getters dict (a missing config or dict is modelled as none), the
dict must hold the my_google_service key, and calling that getter must return
a truthy value. -/
def is_logged_in : Option (List (String × Option String)) → Bool
  | none => false
  | some getters =>
      match lookupEntry getters "my_google_service" with
      | none => false
      | some v => pyTruthy v

/-- hasattr(message, tool_calls): only AIMessage carries the attribute. -/
def tool_calls_of : BaseMessage → Option (List ToolCall)
  | BaseMessage.ai _ tcs => some tcs
  | _ => none

/-- The three labels agent_should_continue can return. -/
inductive Route where
  | continue_
  | request_login
  | end_
deriving DecidableEq, Repr

/-- The for-loop of agent_should_continue: return request_login at the first
requested call whose name is in the auth-tool list while the caller is not
logged in; fall through to continue otherwise. -/
def should_continue_loop (authTools : List String) (loggedIn : Bool) :
    List ToolCall → Route
  | [] => Route.continue_
  | tc :: rest =>
      if tc.name ∈ authTools then
        if loggedIn then should_continue_loop authTools loggedIn rest
        else Route.request_login
      else should_continue_loop authTools loggedIn rest

/-- agent_should_continue of react_graph.py, with the auth-tool name list (the
value of get_auth_tools at the call site) as a parameter: end when the last
message carries no tool_calls attribute or an empty tool_calls list, otherwise
run the per-call loop. Indexing messages[-1] on an empty list raises. -/
def agent_should_continue (authTools : List String)
    (cfg : Option (List (String × Option String))) (msgs : List BaseMessage) :
    Except String Route :=
  match msgs.getLast? with
  | none => Except.error "IndexError"
  | some last =>
      match tool_calls_of last with
      | none => Except.ok Route.end_
      | some tcs =>
          if tcs.length = 0 then Except.ok Route.end_
          else Except.ok (should_continue_loop authTools (is_logged_in cfg) tcs)

/-- The private core tool of a ToolboxTool: its declared auth requirements. -/
structure CoreTool where
  required_authz_tokens : List String
  required_authn_params : List (String × List String)

/-- A toolbox tool: its name, core declaration, the auth-token getters bound to
it so far, and its invocation behaviour (argument string to result text, or a
raised fault). -/
structure ToolboxTool where
  name : String
  core_tool : CoreTool
  auth_token_getters : List (String × Option String)
  run : String → Except String String

/-- The required auth key set of __get_tool_to_run: the required authz tokens
together with every list in required_authn_params. Only membership is used, so
the set is kept as a list. -/
def required_auth_keys (t : CoreTool) : List String :=
  t.required_authz_tokens ++ (t.required_authn_params.map Prod.snd).flatten

/-- ToolboxTool.add_auth_token_getters: hand the given getters to the tool. -/
def add_auth_token_getters (t : ToolboxTool)
    (getters : List (String × Option String)) : ToolboxTool :=
  { t with auth_token_getters := t.auth_token_getters ++ getters }

/-- The private __get_tool_to_run of react_graph.py: when the config carries a
non-empty auth_token_getters dict, keep only the getters whose key is among
the required auth keys of the tool, and bind those (when any remain) to the
tool; in every other case return the tool untouched. -/
def get_tool_to_run (tool : ToolboxTool)
    (cfg : Option (List (String × Option String))) : ToolboxTool :=
  match cfg with
  | none => tool
  | some auth_token_getters =>
      if auth_token_getters = [] then tool
      else
        let keys := required_auth_keys tool.core_tool
        let filtered := auth_token_getters.filter (fun kv => decide (kv.1 ∈ keys))
        if filtered = [] then tool
        else add_auth_token_getters tool filtered

/-- The ASCII apostrophe, written by code point to keep it out of source
literals. -/
def sq : String := String.singleton (Char.ofNat 39)

/-- The unresolved-tool error text of tool_node. -/
def tool_not_found_msg (name : String) : String :=
  "Error: Tool " ++ sq ++ name ++ sq ++ " not found."

/-- The tool-fault error text of tool_node. -/
def tool_exec_error_msg (name e : String) : String :=
  "Error executing tool " ++ name ++ ": " ++ e

/-- The for-loop of tool_node over the requested calls, threading the Python
local variable tool_to_run (unassigned at loop entry). An unresolved name sets
output to the not-found text, but the appended ToolMessage reads
tool_to_run.name: when the local was never assigned this raises
UnboundLocalError, aborting the node; when a resolved call came earlier the
stale tool supplies the name. A resolved call binds the filtered getters,
invokes the tool, and converts a raised fault into the executing-error text;
either way one ToolMessage is appended and the loop continues. -/
def tool_node_go (tools : List ToolboxTool)
    (cfg : Option (List (String × Option String)))
    (tool_to_run : Option ToolboxTool) :
    List ToolCall → Except String (List BaseMessage)
  | [] => Except.ok []
  | tc :: rest =>
      match tools.find? (fun t => t.name == tc.name) with
      | none =>
          match tool_to_run with
          | none => Except.error "UnboundLocalError: tool_to_run"
          | some prev =>
              (tool_node_go tools cfg (some prev) rest).map
                (fun ms =>
                  BaseMessage.tool prev.name (tool_not_found_msg tc.name) tc.id none :: ms)
      | some selected =>
          let t := get_tool_to_run selected cfg
          let output :=
            match t.run tc.args with
            | Except.ok o => o
            | Except.error e => tool_exec_error_msg tc.name e
          (tool_node_go tools cfg (some t) rest).map
            (fun ms => BaseMessage.tool t.name output tc.id none :: ms)

/-- tool_node of react_graph.py: read the last message (messages[-1] raises on
an empty list), return no messages when it has no tool_calls attribute, and
otherwise run the dispatch loop over its requested calls. -/
def tool_node (tools : List ToolboxTool) (msgs : List BaseMessage)
    (cfg : Option (List (String × Option String))) :
    Except String (List BaseMessage) :=
  match msgs.getLast? with
  | none => Except.error "IndexError"
  | some last =>
      match tool_calls_of last with
      | none => Except.ok []
      | some tcs => tool_node_go tools cfg none tcs

/-- The fixed sign-in text of request_login_node. -/
def LOGIN_MESSAGE : String :=
  "This action requires you to be signed in. Please log in and then try again."

/-- request_login_node of react_graph.py: ignore the state and append one
assistant message with the fixed sign-in text. -/
def request_login_node (_state : List BaseMessage) : List BaseMessage :=
  [BaseMessage.ai LOGIN_MESSAGE []]

/-- The nodes of the compiled graph, END included. -/
inductive Node where
  | agent
  | tools
  | request_login
  | END
deriving DecidableEq, Repr

/-- set_entry_point(AGENT_NODE). -/
def entry_point : Node := Node.agent

/-- The conditional edges out of the agent node, keyed by the label
agent_should_continue returns. -/
def conditional_edge : Route → Node
  | Route.continue_ => Node.tools
  | Route.request_login => Node.request_login
  | Route.end_ => Node.END

/-- The unconditional edges of the graph: tools back to agent, request_login
to END. -/
def static_edge : Node → Option Node
  | Node.tools => some Node.agent
  | Node.request_login => some Node.END
  | Node.agent => none
  | Node.END => none

/- ------------------------------------------------------------------ -/
/- Helper lemmas shared by the claim theorems.                         -/
/- ------------------------------------------------------------------ -/

lemma lookup_setEntry_self {β : Type} (l : List (String × β)) (k : String) (v : β) :
    lookupEntry (setEntry l k v) k = some v := by
  induction l with
  | nil => simp [setEntry, lookupEntry]
  | cons hd tl ih =>
      obtain ⟨k1, v1⟩ := hd
      by_cases hk : k1 = k
      · simp [setEntry, hk, lookupEntry]
      · simp [setEntry, hk, lookupEntry, ih]

lemma lookup_setEntry_other {β : Type} (l : List (String × β)) (k k2 : String) (v : β)
    (h : k ≠ k2) : lookupEntry (setEntry l k v) k2 = lookupEntry l k2 := by
  induction l with
  | nil => simp [setEntry, lookupEntry, h]
  | cons hd tl ih =>
      obtain ⟨k1, v1⟩ := hd
      by_cases hk : k1 = k
      · subst hk
        simp [setEntry, lookupEntry, h]
      · simp [setEntry, hk, lookupEntry, ih]

lemma lookup_removeEntry_self {β : Type} (l : List (String × β)) (k : String) :
    lookupEntry (removeEntry l k) k = none := by
  induction l with
  | nil => simp [removeEntry, lookupEntry]
  | cons hd tl ih =>
      obtain ⟨k1, v1⟩ := hd
      by_cases hk : k1 = k
      · simp [removeEntry, hk, ih]
      · simp [removeEntry, hk, lookupEntry, ih]

lemma update_state_user_sessions (st : AgentState) (tid : String)
    (msgs : List BaseMessage) : (update_state st tid msgs).user_sessions = st.user_sessions :=
  rfl

lemma update_state_checkpoints (st : AgentState) (tid : String) (msgs : List BaseMessage) :
    (update_state st tid msgs).checkpoints =
      setEntry st.checkpoints tid (((lookupEntry st.checkpoints tid).getD []) ++ msgs) :=
  rfl

lemma get_base_history_type (session : Session) : (get_base_history session).type = "ai" := by
  unfold get_base_history
  cases session.user_info <;> rfl

lemma parse_single_ai (r : HistRecord) (h : r.type = "ai") :
    parse_messages [r] = Except.ok [BaseMessage.ai r.content []] := by
  unfold parse_messages
  rw [h]
  simp [parse_messages, Except.map]

lemma parse_base (session : Session) :
    parse_messages [get_base_history session] =
      Except.ok [BaseMessage.ai (get_base_history session).content []] :=
  parse_single_ai _ (get_base_history_type session)

lemma getLast?_append_singleton {α : Type} (l : List α) (a : α) :
    (l ++ [a]).getLast? = some a := by
  rw [List.getLast?_append_cons]
  rfl

/-- The shape of a successful user_session_create, given that the history
parses. -/
lemma user_session_create_eq (st : AgentState) (session : Session) (fresh : String)
    (msgs : List BaseMessage) (hp : parse_messages (create_hist session) = Except.ok msgs) :
    user_session_create st session fresh =
      Except.ok
        ({ user_sessions :=
              setEntry st.user_sessions (session_uuid session fresh) ""
         , checkpoints :=
              setEntry st.checkpoints (session_uuid session fresh)
                (((lookupEntry st.checkpoints (session_uuid session fresh)).getD []) ++ msgs) },
         { uuid := some (session_uuid session fresh)
         , history := some (create_hist session)
         , user_info := session.user_info }) := by
  unfold user_session_create
  rw [hp]
  rfl

/-- Inversion: any successful user_session_create has that shape. -/
lemma user_session_create_ok_inv (st : AgentState) (session : Session) (fresh : String)
    (st1 : AgentState) (s1 : Session)
    (hc : user_session_create st session fresh = Except.ok (st1, s1)) :
    s1.uuid = some (session_uuid session fresh) ∧
      st1.user_sessions = setEntry st.user_sessions (session_uuid session fresh) "" := by
  unfold user_session_create at hc
  cases hp : parse_messages (create_hist session) with
  | error e => rw [hp] at hc; exact absurd hc (by simp)
  | ok msgs =>
      rw [hp] at hc
      simp only [Except.ok.injEq, Prod.mk.injEq] at hc
      obtain ⟨h1, h2⟩ := hc
      constructor
      · rw [← h2]
      · rw [← h1]
        rfl

lemma should_continue_loop_request (authTools : List String) (tcs : List ToolCall)
    (h : ∃ tc ∈ tcs, tc.name ∈ authTools) :
    should_continue_loop authTools false tcs = Route.request_login := by
  induction tcs with
  | nil => simp at h
  | cons tc rest ih =>
      by_cases hm : tc.name ∈ authTools
      · simp [should_continue_loop, hm]
      · have : ∃ u ∈ rest, u.name ∈ authTools := by
          obtain ⟨u, hu, hau⟩ := h
          rcases List.mem_cons.mp hu with h1 | h1
          · exact absurd (h1 ▸ hau) hm
          · exact ⟨u, h1, hau⟩
        simp [should_continue_loop, hm, ih this]

lemma should_continue_loop_continue (authTools : List String) (loggedIn : Bool)
    (tcs : List ToolCall)
    (h : ∀ tc ∈ tcs, tc.name ∈ authTools → loggedIn = true) :
    should_continue_loop authTools loggedIn tcs = Route.continue_ := by
  induction tcs with
  | nil => rfl
  | cons tc rest ih =>
      have hrest : ∀ tc ∈ rest, tc.name ∈ authTools → loggedIn = true := by
        intro u hu hau
        exact h u (List.mem_cons_of_mem _ hu) hau
      by_cases hm : tc.name ∈ authTools
      · have : loggedIn = true := h tc (List.mem_cons_self _ _) hm
        subst this
        simp [should_continue_loop, hm, ih hrest]
      · simp [should_continue_loop, hm, ih hrest]

/-- agent_should_continue, evaluated on a history ending in a model
response. -/
lemma agent_should_continue_last (authTools : List String)
    (cfg : Option (List (String × Option String))) (hist : List BaseMessage)
    (c : String) (tcs : List ToolCall) :
    agent_should_continue authTools cfg (hist ++ [BaseMessage.ai c tcs]) =
      (if tcs.length = 0 then Except.ok Route.end_
       else Except.ok (should_continue_loop authTools (is_logged_in cfg) tcs)) := by
  unfold agent_should_continue
  rw [getLast?_append_singleton]
  rfl

lemma retrieve_trace_cons_nontool (m : BaseMessage) (rest : List BaseMessage)
    (h : isToolMsg m = false) :
    retrieve_trace (m :: rest) = retrieve_trace rest := by
  cases m with
  | human c => rfl
  | ai c tcs => rfl
  | tool a b c d => simp [isToolMsg] at h

lemma retrieve_trace_length (l : List BaseMessage) :
    (retrieve_trace l).length = (l.filter isToolMsg).length := by
  induction l with
  | nil => rfl
  | cons m rest ih =>
      cases m <;> simp [retrieve_trace, isToolMsg, List.filter_cons, ih]

/-- Dropping one position before the end of the first list keeps its last
element and everything after. -/
lemma drop_pred_append {α : Type} :
    ∀ (pre : List α) (m : α) (xs : List α), pre.getLast? = some m →
      (pre ++ xs).drop (pre.length - 1) = m :: xs
  | [], m, xs, h => by simp at h
  | [a], m, xs, h => by
      simp at h
      subst h
      simp
  | a :: b :: t, m, xs, h => by
      rw [List.getLast?_cons_cons] at h
      have ih := drop_pred_append (b :: t) m xs h
      simp only [List.length_cons, List.cons_append, Nat.add_sub_cancel, List.drop_succ_cons]
      simpa using ih

/-- The Python slice start used by user_session_invoke is an ordinary drop of
length - 1 positions whenever the pre-cycle list is non-empty. -/
lemma pySliceFrom_pred {α : Type} (pre xs : List α) (h : pre ≠ []) :
    pySliceFrom ((pre.length : Int) - 1) (pre ++ xs) = (pre ++ xs).drop (pre.length - 1) := by
  have hlen : 1 ≤ pre.length := List.length_pos.mpr h
  have hnn : ¬ ((pre.length : Int) - 1 < 0) := by omega
  have hcast : ((pre.length : Int) - 1).toNat = pre.length - 1 := by omega
  simp [pySliceFrom, hnn, hcast]

/- ------------------------------------------------------------------ -/
/- Claim theorems.                                                     -/
/- ------------------------------------------------------------------ -/

/-- An agent state with a stored credential and some stored turns for the
session, used for the reset counterexample. -/
def c1_state : AgentState :=
  { user_sessions := [("s", "tok")]
  , checkpoints := [("s", [BaseMessage.human "hi"])] }

/-- A session dict with an existing history. -/
def c1_session : Session :=
  { uuid := some "s", history := some [{ type := "human", content := "hi" }], user_info := none }

/-- Claim C1 (counterexample): for a session whose credential is the token
tok, user_session_reset succeeds but get_user_id_token still returns the
token, not absent — reset never touches the _user_sessions dict. -/
theorem reset_keeps_credential_cex :
    (match user_session_reset c1_state c1_session "s" with
     | Except.ok (st2, _) => get_user_id_token st2 "s"
     | Except.error _ => none) = some "tok"
    ∧ (some "tok" : Option String) ≠ none := by
  constructor
  · rfl
  · decide

/-- Claim C1 (amended): for every session dict with an existing history,
user_session_reset leaves the stored state as exactly one fresh greeting
Turn, fully replacing (not merging) the stored checkpoint at that session
identifier; the auth-capability association is not cleared: the credential
map is untouched and get_user_id_token afterwards returns exactly what it
returned before. -/
theorem reset_full_replace_keeps_credential (st : AgentState) (session : Session)
    (sid : String) (h0 : session.history ≠ none) :
    ∃ st2 s2, user_session_reset st session sid = Except.ok (st2, s2)
      ∧ lookupEntry st2.checkpoints sid
          = some [BaseMessage.ai (get_base_history session).content []]
      ∧ s2.history = some [get_base_history session]
      ∧ st2.user_sessions = st.user_sessions
      ∧ get_user_id_token st2 sid = get_user_id_token st sid := by
  obtain ⟨u, oh, ui⟩ := session
  cases oh with
  | none => simp at h0
  | some hist =>
      have hr : user_session_reset st ⟨u, some hist, ui⟩ sid =
          Except.ok
            (update_state (put_empty_checkpoint st sid) sid
              [BaseMessage.ai (get_base_history ⟨u, some hist, ui⟩).content []],
             ⟨u, some [get_base_history ⟨u, some hist, ui⟩], ui⟩) := by
        simp only [user_session_reset, parse_base]
      refine ⟨_, _, hr, ?_, rfl, rfl, rfl⟩
      simp [update_state, put_empty_checkpoint, lookup_setEntry_self]

/-- Witness for the amended C1 at a concrete state with a stored token. -/
theorem reset_full_replace_keeps_credential_witness :
    ∃ st2 s2, user_session_reset c1_state c1_session "s" = Except.ok (st2, s2)
      ∧ lookupEntry st2.checkpoints "s"
          = some [BaseMessage.ai (get_base_history c1_session).content []]
      ∧ s2.history = some [get_base_history c1_session]
      ∧ st2.user_sessions = c1_state.user_sessions
      ∧ get_user_id_token st2 "s" = get_user_id_token c1_state "s" :=
  reset_full_replace_keeps_credential c1_state c1_session "s" (by decide)

/-- A pre-cycle history whose last turn is a tool result. -/
def c2_pre : List BaseMessage :=
  [BaseMessage.tool "search_products" "3 matches" "call1" none]

/-- The turns appended by the cycle: one plain model answer, no tool result. -/
def c2_new : List BaseMessage := [BaseMessage.ai "done" []]

/-- Claim C2 (counterexample): when the turn list before the cycle ends in a
tool-result Turn, the trace of user_session_invoke contains an entry for that
earlier-cycle turn even though the cycle appended no tool result — the
recorded slice start is the pre-cycle length minus one, which covers the last
pre-cycle turn. -/
theorem invoke_trace_includes_prior_tool_turn :
    user_session_invoke_trace c2_pre c2_new
      = [{ tool_call_id := "search_products", results := "3 matches", sql := none }]
    ∧ (c2_new.filter isToolMsg).length = 0 := by
  constructor
  · rfl
  · rfl

/-- Claim C2 (amended): the trace slice starts at pre-cycle length minus one,
so it covers the last pre-cycle turn as well; whenever that last pre-cycle
turn is not a tool result (every state the facade can leave behind ends in an
assistant turn), the trace is exactly the tool-result turns appended during
the cycle, one entry each, and none from earlier cycles. -/
theorem invoke_trace_exactly_new_tool_turns (pre newMessages : List BaseMessage)
    (m : BaseMessage) (hl : pre.getLast? = some m) (hm : isToolMsg m = false) :
    user_session_invoke_trace pre newMessages = retrieve_trace newMessages
    ∧ (user_session_invoke_trace pre newMessages).length
        = (newMessages.filter isToolMsg).length := by
  have hne : pre ≠ [] := by
    intro h
    subst h
    simp at hl
  have h1 : user_session_invoke_trace pre newMessages = retrieve_trace newMessages := by
    unfold user_session_invoke_trace
    rw [pySliceFrom_pred _ _ hne, drop_pred_append pre m newMessages hl,
        retrieve_trace_cons_nontool m newMessages hm]
  exact ⟨h1, by rw [h1, retrieve_trace_length]⟩

/-- Witness for the amended C2: a greeting-final pre-cycle list and one
appended tool result give exactly one trace entry. -/
theorem invoke_trace_exactly_new_tool_turns_witness :
    user_session_invoke_trace [BaseMessage.ai "greet" []]
        [BaseMessage.tool "search_products" "3 matches" "c1" none]
      = retrieve_trace [BaseMessage.tool "search_products" "3 matches" "c1" none]
    ∧ (user_session_invoke_trace [BaseMessage.ai "greet" []]
        [BaseMessage.tool "search_products" "3 matches" "c1" none]).length
      = ([BaseMessage.tool "search_products" "3 matches" "c1" none].filter isToolMsg).length :=
  invoke_trace_exactly_new_tool_turns [BaseMessage.ai "greet" []]
    [BaseMessage.tool "search_products" "3 matches" "c1" none]
    (BaseMessage.ai "greet" []) rfl rfl

/-- The registry available to the dispatch step in the C3 scenario: only
search_products exists. -/
def c3_tools : List ToolboxTool :=
  [{ name := "search_products"
   , core_tool := { required_authz_tokens := [], required_authn_params := [] }
   , auth_token_getters := []
   , run := fun _ => Except.ok "3 matches" }]

/-- Claim C3 (code bug): when the first requested call names a tool missing
from the registry, tool_node does not append the synthesized error Turn and
continue — building the ToolMessage reads the loop-local tool_to_run, which
was never assigned, so the node raises and the cycle aborts. -/
theorem tool_node_unresolved_first_call_raises :
    tool_node c3_tools
        [BaseMessage.ai "x" [{ name := "nonexistent_tool", args := "", id := "c1" }]] none
      = Except.error "UnboundLocalError: tool_to_run" := rfl

/-- Claim C4: for a model response ending the history, agent_should_continue
returns end when the response requests no tool calls; request_login when some
requested call is auth-tagged while the auth-token getter of the caller does
not provide a (truthy) credential; and continue otherwise. -/
theorem agent_should_continue_routes (authTools : List String)
    (cfg : Option (List (String × Option String))) (hist : List BaseMessage)
    (c : String) (tcs : List ToolCall) :
    (tcs = [] →
      agent_should_continue authTools cfg (hist ++ [BaseMessage.ai c tcs])
        = Except.ok Route.end_)
    ∧ ((∃ tc ∈ tcs, tc.name ∈ authTools) → is_logged_in cfg = false →
      agent_should_continue authTools cfg (hist ++ [BaseMessage.ai c tcs])
        = Except.ok Route.request_login)
    ∧ (tcs ≠ [] → (∀ tc ∈ tcs, tc.name ∈ authTools → is_logged_in cfg = true) →
      agent_should_continue authTools cfg (hist ++ [BaseMessage.ai c tcs])
        = Except.ok Route.continue_) := by
  refine ⟨?_, ?_, ?_⟩
  · intro h
    subst h
    rw [agent_should_continue_last]
    rfl
  · intro hex hlog
    rw [agent_should_continue_last]
    have hne : ¬(tcs.length = 0) := by
      obtain ⟨tc, htc, _⟩ := hex
      simp [List.length_eq_zero, List.ne_nil_of_mem htc]
    rw [if_neg hne, hlog]
    exact congrArg Except.ok (should_continue_loop_request authTools tcs hex)
  · intro hne hall
    rw [agent_should_continue_last]
    have hne2 : ¬(tcs.length = 0) := by simp [List.length_eq_zero, hne]
    rw [if_neg hne2]
    exact congrArg Except.ok (should_continue_loop_continue authTools _ tcs hall)

/-- Witness for C4: an auth-tagged call with an empty-string credential routes
to request_login. -/
theorem agent_should_continue_routes_witness :
    agent_should_continue ["check_balance"] (some [("my_google_service", some "")])
        ([] ++ [BaseMessage.ai "x" [{ name := "check_balance", args := "", id := "1" }]])
      = Except.ok Route.request_login :=
  (agent_should_continue_routes ["check_balance"] (some [("my_google_service", some "")])
      [] "x" [{ name := "check_balance", args := "", id := "1" }]).2.1
    ⟨{ name := "check_balance", args := "", id := "1" }, by decide, by decide⟩ (by decide)

/-- The empty agent state used in the creation counterexample. -/
def c5_st0 : AgentState := { user_sessions := [], checkpoints := [] }

/-- An existing session dict with one ai record of history. -/
def c5_session : Session :=
  { uuid := some "s", history := some [{ type := "ai", content := "hi" }], user_info := none }

/-- Result of the first user_session_create call. -/
def c5_once : Except String (AgentState × Session) :=
  user_session_create c5_st0 c5_session "f"

/-- Result of a second user_session_create call on the state and session the
first one produced. -/
def c5_twice : Except String (AgentState × Session) :=
  match c5_once with
  | Except.ok (st1, s1) => user_session_create st1 s1 "f"
  | Except.error e => Except.error e

/-- The turn sequence a creation result stores for a session id. -/
def stored_turns (r : Except String (AgentState × Session)) (sid : String) :
    Option (List BaseMessage) :=
  match r with
  | Except.ok (st, _) => lookupEntry st.checkpoints sid
  | Except.error _ => none

/-- Claim C5 (counterexample): calling user_session_create twice with the same
existing session identifier and unchanged history does not yield the same turn
sequence — the add_messages channel appends the freshly parsed history again,
so the second call stores the history twice. -/
theorem create_twice_duplicates_history_cex :
    stored_turns c5_once "s" = some [BaseMessage.ai "hi" []]
    ∧ stored_turns c5_twice "s" = some [BaseMessage.ai "hi" [], BaseMessage.ai "hi" []]
    ∧ stored_turns c5_twice "s" ≠ stored_turns c5_once "s" := by
  refine ⟨rfl, rfl, ?_⟩
  decide

/-- Claim C5 (amended): user_session_create with an existing identifier and
history is not idempotent on the stored turns: every call appends the parsed
history to the stored sequence, so two calls store the prior turns followed by
the history twice; only the credential entry (set to the empty string) is the
same after one or two calls. -/
theorem create_twice_appends_history (st : AgentState) (sid fresh1 fresh2 : String)
    (h : List HistRecord) (uinfo : Option String) (msgs : List BaseMessage)
    (hp : parse_messages h = Except.ok msgs) :
    ∃ st1 s1 st2 s2,
      user_session_create st { uuid := some sid, history := some h, user_info := uinfo } fresh1
        = Except.ok (st1, s1)
      ∧ user_session_create st1 s1 fresh2 = Except.ok (st2, s2)
      ∧ lookupEntry st1.checkpoints sid
          = some (((lookupEntry st.checkpoints sid).getD []) ++ msgs)
      ∧ lookupEntry st2.checkpoints sid
          = some ((((lookupEntry st.checkpoints sid).getD []) ++ msgs) ++ msgs)
      ∧ lookupEntry st2.user_sessions sid = some "" := by
  have e1 : user_session_create st { uuid := some sid, history := some h, user_info := uinfo }
        fresh1
      = Except.ok
          ({ user_sessions := setEntry st.user_sessions sid ""
           , checkpoints :=
               setEntry st.checkpoints sid
                 (((lookupEntry st.checkpoints sid).getD []) ++ msgs) },
           { uuid := some sid, history := some h, user_info := uinfo }) :=
    user_session_create_eq st _ fresh1 msgs hp
  have e2 : user_session_create
        { user_sessions := setEntry st.user_sessions sid ""
        , checkpoints :=
            setEntry st.checkpoints sid (((lookupEntry st.checkpoints sid).getD []) ++ msgs) }
        { uuid := some sid, history := some h, user_info := uinfo } fresh2
      = Except.ok
          ({ user_sessions := setEntry (setEntry st.user_sessions sid "") sid ""
           , checkpoints :=
               setEntry
                 (setEntry st.checkpoints sid
                   (((lookupEntry st.checkpoints sid).getD []) ++ msgs)) sid
                 (((lookupEntry
                     (setEntry st.checkpoints sid
                       (((lookupEntry st.checkpoints sid).getD []) ++ msgs)) sid).getD [])
                   ++ msgs) },
           { uuid := some sid, history := some h, user_info := uinfo }) :=
    user_session_create_eq _ _ fresh2 msgs hp
  refine ⟨_, _, _, _, e1, e2, ?_, ?_, ?_⟩
  · exact lookup_setEntry_self _ _ _
  · rw [lookup_setEntry_self]
    simp [lookup_setEntry_self]
  · exact lookup_setEntry_self _ _ _

/-- Witness for the amended C5 at an empty initial state. -/
theorem create_twice_appends_history_witness :
    ∃ st1 s1 st2 s2,
      user_session_create { user_sessions := [], checkpoints := [] }
          { uuid := some "s", history := some [{ type := "ai", content := "hi" }]
          , user_info := none } "f"
        = Except.ok (st1, s1)
      ∧ user_session_create st1 s1 "g" = Except.ok (st2, s2)
      ∧ lookupEntry st1.checkpoints "s"
          = some (((lookupEntry (AgentState.mk [] []).checkpoints "s").getD [])
              ++ [BaseMessage.ai "hi" []])
      ∧ lookupEntry st2.checkpoints "s"
          = some ((((lookupEntry (AgentState.mk [] []).checkpoints "s").getD [])
              ++ [BaseMessage.ai "hi" []]) ++ [BaseMessage.ai "hi" []])
      ∧ lookupEntry st2.user_sessions "s" = some "" :=
  create_twice_appends_history { user_sessions := [], checkpoints := [] } "s" "f" "g"
    [{ type := "ai", content := "hi" }] none [BaseMessage.ai "hi" []] rfl

/-- Binding auth-token getters changes neither the name nor the behaviour of a
tool. -/
lemma get_tool_to_run_preserves (t : ToolboxTool)
    (cfg : Option (List (String × Option String))) :
    (get_tool_to_run t cfg).name = t.name ∧ (get_tool_to_run t cfg).run = t.run := by
  cases cfg with
  | none => exact ⟨rfl, rfl⟩
  | some g =>
      simp only [get_tool_to_run, add_auth_token_getters]
      split_ifs <;> exact ⟨rfl, rfl⟩

/-- A tool of the C6 scenario whose invocation always raises. -/
def c6_tool : ToolboxTool :=
  { name := "search_products"
  , core_tool := { required_authz_tokens := [], required_authn_params := [] }
  , auth_token_getters := []
  , run := fun _ => Except.error "boom" }

/-- Claim C6: a resolved call whose invocation raises is absorbed: the loop
appends one tool-result Turn carrying the fault text and goes on with the
remaining calls (first conjunct, for any loop state), a cycle consisting of
that single call succeeds with exactly that Turn (second conjunct), and the
tools node hands control back to the agent node (third conjunct). -/
theorem tool_fault_absorbed (tools : List ToolboxTool)
    (cfg : Option (List (String × Option String)))
    (tc : ToolCall) (rest : List ToolCall) (cur : Option ToolboxTool)
    (t : ToolboxTool) (e : String)
    (hfind : tools.find? (fun u => u.name == tc.name) = some t)
    (hrun : t.run tc.args = Except.error e) :
    tool_node_go tools cfg cur (tc :: rest)
      = (tool_node_go tools cfg (some (get_tool_to_run t cfg)) rest).map
          (fun ms => BaseMessage.tool t.name (tool_exec_error_msg tc.name e) tc.id none :: ms)
    ∧ tool_node tools [BaseMessage.ai "" [tc]] cfg
      = Except.ok [BaseMessage.tool t.name (tool_exec_error_msg tc.name e) tc.id none]
    ∧ static_edge Node.tools = some Node.agent := by
  obtain ⟨hname, hrun2⟩ := get_tool_to_run_preserves t cfg
  have key : ∀ (cur2 : Option ToolboxTool) (rest2 : List ToolCall),
      tool_node_go tools cfg cur2 (tc :: rest2)
        = (tool_node_go tools cfg (some (get_tool_to_run t cfg)) rest2).map
            (fun ms =>
              BaseMessage.tool t.name (tool_exec_error_msg tc.name e) tc.id none :: ms) := by
    intro cur2 rest2
    simp only [tool_node_go, hfind]
    rw [hrun2, hrun, hname]
  refine ⟨key cur rest, ?_, rfl⟩
  show tool_node_go tools cfg none [tc] = _
  rw [key none []]
  rfl

/-- Witness for C6: a registry holding one always-raising tool produces one
error-text Turn and a successful node result. -/
theorem tool_fault_absorbed_witness :
    tool_node [c6_tool] [BaseMessage.ai "" [{ name := "search_products", args := "q", id := "c1" }]]
        none
      = Except.ok
          [BaseMessage.tool "search_products"
            (tool_exec_error_msg "search_products" "boom") "c1" none] :=
  (tool_fault_absorbed [c6_tool] none { name := "search_products", args := "q", id := "c1" }
    [] none c6_tool "boom" rfl rfl).2.1

/-- Claim C7: every auth-token getter the dispatch step hands to a tool either
was already bound to the tool or has a key among the declared required
capability keys of the tool; a getter with an unrelated key is never
injected. -/
theorem tool_injection_least_privilege (tool : ToolboxTool)
    (cfg : Option (List (String × Option String))) (kv : String × Option String)
    (hkv : kv ∈ (get_tool_to_run tool cfg).auth_token_getters) :
    kv ∈ tool.auth_token_getters ∨ kv.1 ∈ required_auth_keys tool.core_tool := by
  cases cfg with
  | none => exact Or.inl hkv
  | some g =>
      simp only [get_tool_to_run] at hkv
      by_cases hg : g = []
      · rw [if_pos hg] at hkv
        exact Or.inl hkv
      · rw [if_neg hg] at hkv
        by_cases hf :
            g.filter (fun kv2 => decide (kv2.1 ∈ required_auth_keys tool.core_tool)) = []
        · rw [if_pos hf] at hkv
          exact Or.inl hkv
        · rw [if_neg hf] at hkv
          simp only [add_auth_token_getters, List.mem_append] at hkv
          cases hkv with
          | inl hin => exact Or.inl hin
          | inr hin =>
              right
              have := List.mem_filter.mp hin
              exact of_decide_eq_true this.2

/-- A tool of the C7 scenario requiring one capability key. -/
def c7_tool : ToolboxTool :=
  { name := "t"
  , core_tool := { required_authz_tokens := ["my_google_service"], required_authn_params := [] }
  , auth_token_getters := []
  , run := fun _ => Except.ok "" }

/-- Witness for C7: with a config carrying a matching and an unrelated getter,
the injected matching getter satisfies the key condition. -/
theorem tool_injection_least_privilege_witness :
    ("my_google_service", (some "tok" : Option String)) ∈ c7_tool.auth_token_getters
      ∨ "my_google_service" ∈ required_auth_keys c7_tool.core_tool :=
  tool_injection_least_privilege c7_tool
    (some [("my_google_service", some "tok"), ("other", some "x")])
    ("my_google_service", some "tok") (by decide)

/-- Claim C8: request_login_node appends exactly one assistant Turn carrying
the fixed sign-in text, the dispatcher label request_login leads to that node,
and the only edge out of it goes to END — no tool node and no further model
call in that cycle. -/
theorem need_login_terminal (s : List BaseMessage) :
    request_login_node s = [BaseMessage.ai LOGIN_MESSAGE []]
    ∧ (request_login_node s).length = 1
    ∧ conditional_edge Route.request_login = Node.request_login
    ∧ static_edge Node.request_login = some Node.END
    ∧ static_edge Node.request_login ≠ some Node.tools
    ∧ static_edge Node.request_login ≠ some Node.agent :=
  ⟨rfl, rfl, rfl, rfl, by decide, by decide⟩

/-- Witness for C8 at the empty state. -/
theorem need_login_terminal_witness :
    request_login_node [] = [BaseMessage.ai LOGIN_MESSAGE []]
    ∧ (request_login_node []).length = 1
    ∧ conditional_edge Route.request_login = Node.request_login
    ∧ static_edge Node.request_login = some Node.END
    ∧ static_edge Node.request_login ≠ some Node.tools
    ∧ static_edge Node.request_login ≠ some Node.agent :=
  need_login_terminal []

/-- Claim C9: after a successful user_session_create for a session identifier,
user_session_signout succeeds even though no credential was ever set (creation
stores the empty string), and get_user_id_token afterwards returns absent. -/
theorem signout_after_create (st : AgentState) (session : Session)
    (fresh sid : String) (st1 : AgentState) (s1 : Session)
    (hc : user_session_create st session fresh = Except.ok (st1, s1))
    (hs : s1.uuid = some sid) :
    ∃ st2, user_session_signout st1 sid = Except.ok st2
      ∧ get_user_id_token st2 sid = none := by
  obtain ⟨huuid, hsess⟩ := user_session_create_ok_inv st session fresh st1 s1 hc
  rw [huuid] at hs
  have hsid : session_uuid session fresh = sid := Option.some_inj.mp hs
  have hl : lookupEntry st1.user_sessions sid = some "" := by
    rw [hsess, hsid]
    exact lookup_setEntry_self _ _ _
  simp only [user_session_signout, put_empty_checkpoint]
  rw [hl]
  exact ⟨_, rfl, lookup_removeEntry_self _ _⟩

/-- Witness for C9 at a concretely created session. -/
theorem signout_after_create_witness :
    ∃ st2,
      user_session_signout
          { user_sessions := [("s", "")]
          , checkpoints := [("s", [BaseMessage.ai "hi" []])] } "s"
        = Except.ok st2
      ∧ get_user_id_token st2 "s" = none :=
  signout_after_create { user_sessions := [], checkpoints := [] }
    { uuid := some "s", history := some [{ type := "ai", content := "hi" }], user_info := none }
    "f" "s"
    { user_sessions := [("s", "")], checkpoints := [("s", [BaseMessage.ai "hi" []])] }
    { uuid := some "s", history := some [{ type := "ai", content := "hi" }], user_info := none }
    rfl rfl

/-- Claim C10: right after user_session_create the stored credential is the
empty string; the login check treats it as absent, so the session is not
logged in under its own config; hence any model response requesting an
auth-tagged tool routes to request_login. -/
theorem fresh_session_requires_login (st : AgentState) (session : Session)
    (fresh sid : String) (st1 : AgentState) (s1 : Session)
    (hc : user_session_create st session fresh = Except.ok (st1, s1))
    (hs : s1.uuid = some sid) :
    get_user_id_token st1 sid = some ""
    ∧ is_logged_in (some (get_config st1 sid)) = false
    ∧ ∀ (authTools : List String) (hist : List BaseMessage) (c : String)
        (tcs : List ToolCall), (∃ tc ∈ tcs, tc.name ∈ authTools) →
        agent_should_continue authTools (some (get_config st1 sid))
            (hist ++ [BaseMessage.ai c tcs])
          = Except.ok Route.request_login := by
  obtain ⟨huuid, hsess⟩ := user_session_create_ok_inv st session fresh st1 s1 hc
  rw [huuid] at hs
  have hsid : session_uuid session fresh = sid := Option.some_inj.mp hs
  have htok : get_user_id_token st1 sid = some "" := by
    unfold get_user_id_token
    rw [hsess, hsid]
    exact lookup_setEntry_self _ _ _
  have hlog : is_logged_in (some (get_config st1 sid)) = false := by
    simp [is_logged_in, get_config, lookupEntry, htok, pyTruthy]
  refine ⟨htok, hlog, ?_⟩
  intro authTools hist c tcs hex
  rw [agent_should_continue_last]
  have hne : ¬(tcs.length = 0) := by
    obtain ⟨tc, htc, _⟩ := hex
    simp [List.length_eq_zero, List.ne_nil_of_mem htc]
  rw [if_neg hne, hlog]
  exact congrArg Except.ok (should_continue_loop_request authTools tcs hex)

/-- The empty state the C10 witness creates its session in. -/
def c10_st0 : AgentState := { user_sessions := [], checkpoints := [] }

/-- The session dict of the C10 witness. -/
def c10_sess : Session :=
  { uuid := some "s", history := some [{ type := "ai", content := "hi" }], user_info := none }

/-- The agent state right after creating the C10 witness session. -/
def c10_st1 : AgentState :=
  { user_sessions := [("s", "")], checkpoints := [("s", [BaseMessage.ai "hi" []])] }

/-- Witness for C10: the concretely created session has the empty-string
credential, fails the login check, and an auth-tagged request routes to
request_login. -/
theorem fresh_session_requires_login_witness :
    get_user_id_token c10_st1 "s" = some ""
    ∧ is_logged_in (some (get_config c10_st1 "s")) = false
    ∧ agent_should_continue ["check_balance"] (some (get_config c10_st1 "s"))
        ([] ++ [BaseMessage.ai "x" [{ name := "check_balance", args := "", id := "1" }]])
      = Except.ok Route.request_login := by
  have h := fresh_session_requires_login c10_st0 c10_sess "f" "s" c10_st1 c10_sess rfl rfl
  exact ⟨h.1, h.2.1,
    h.2.2 ["check_balance"] [] "x" [{ name := "check_balance", args := "", id := "1" }]
      ⟨{ name := "check_balance", args := "", id := "1" }, by decide, by decide⟩⟩

end BcelBot
